import Mathlib

set_option linter.unusedVariables false

/-!
Verification of the "Ragged Flattener" and `Learner` adapter from
`src/jade/learn.py`.

The Python code works on duck-typed nested sequences.  We embed them as:

* `Pred α`  — a predictor node: either a leaf feature vector (a `List α`,
  supporting `len`) or a nested sequence of predictor nodes;
* `Resp β`  — a response node: either a scalar label or a nested sequence
  of response nodes (the `isinstance(Y, (list, tuple, numpy.ndarray))`
  test distinguishes the two constructors).

Python exceptions (TypeError on `len` of a scalar, IndexError when `Y` is
shorter than `X`) are modelled by an `Option` result; the distinction
between `flatten`'s two-element base-case return and its three-element
recursive return is kept as an `Option (List Nat)` third component
(`none` = the base case returned only two values).
-/

namespace Jade

/-- A predictor element: a leaf feature vector or a nested sequence. -/
inductive Pred (α : Type) where
  | leaf : List α → Pred α
  | seq : List (Pred α) → Pred α

/-- A response element: a scalar label or a nested sequence. -/
inductive Resp (β : Type) where
  | scalar : β → Resp β
  | seq : List (Resp β) → Resp β

/-- Python `len` on a predictor element (`len` of a leaf feature vector is
its length; `len` of a nested sequence is the number of children). -/
def plen {α : Type} : Pred α → Nat
  | .leaf v => v.length
  | .seq l => l.length

mutual

/-- Embedding of `Learner.flatten` (src/jade/learn.py, lines 106-122).

`flatten(X, Y)`:
* if `Y` is not a sequence (a scalar), return `([X], [Y])` — a 2-tuple,
  modelled by a `none` third component;
* otherwise loop `for idx in range(0, len(X))`, recursively flattening
  `(X[idx], Y[idx])`, extending `fX`/`fY` with the two first components of
  the recursive result and appending `len(X[idx])` to `fZ`.

A `none` overall result models a Python exception: `len(X)` iterating a
scalar-like leaf (`TypeError` via `X[idx]` / `len`) or `Y[idx]` out of
range (`IndexError`, when `len(Y) < len(X)`). -/
def flatten {α β : Type} : Pred α → Resp β → Option (List (Pred α) × List β × Option (List Nat))
  | X, .scalar b => some ([X], [b], none)
  | .leaf [], .seq _ => some ([], [], some [])
  | .leaf (_ :: _), .seq _ => none
  | .seq xs, .seq ys =>
    if xs.length ≤ ys.length then
      match flattenZip xs ys with
      | some (fX, fY, fZ) => some (fX, fY, some fZ)
      | none => none
    else none
termination_by X Y => sizeOf Y

/-- The loop `for idx in range(0, len(X))` of `flatten`, walking the two
sequences in lockstep (only the first `len(X)` elements of `Y` are read). -/
def flattenZip {α β : Type} : List (Pred α) → List (Resp β) → Option (List (Pred α) × List β × List Nat)
  | [], _ => some ([], [], [])
  | _ :: _, [] => some ([], [], [])
  | x :: xs, y :: ys =>
    match flatten x y with
    | none => none
    | some (dX, dY, _) =>
      match flattenZip xs ys with
      | none => none
      | some (rX, rY, rZ) => some (dX ++ rX, dY ++ rY, plen x :: rZ)
termination_by xs ys => sizeOf ys

end

/-- The result of `inverse_flatten`: either the inputs unchanged (`flat`)
or the regrouped slices (`grouped`); the Python function returns values of
either shape from the two branches. -/
inductive Grouped (γ β : Type) where
  | flat : List γ → List β → Grouped γ β
  | grouped : List (List γ) → List (List β) → Grouped γ β
deriving DecidableEq

/-- The slicing loop of `inverse_flatten`: starting from cursor `c`, for
each group size `z` take the slice `X[c : c + z]` and advance the cursor by
`z`.  Python slicing clamps out-of-range bounds, exactly like
`(X.drop c).take z`. -/
def sliceFrom {γ : Type} (X : List γ) : Nat → List Nat → List (List γ)
  | _, [] => []
  | c, z :: zs => ((X.drop c).take z) :: sliceFrom X (c + z) zs

/-- Embedding of `Learner.inverse_flatten` (src/jade/learn.py, lines
124-139): if `len(Z) < len(Y)`, slice `X` and `Y` into groups of the sizes
listed in `Z` (the cursor starting at 0); otherwise return `X, Y`
unchanged. -/
def inverse_flatten {γ β : Type} (X : List γ) (Y : List β) (Z : List Nat) : Grouped γ β :=
  if Z.length < Y.length then
    .grouped (sliceFrom X 0 Z) (sliceFrom Y 0 Z)
  else
    .flat X Y

/-- The Y component length of an `inverse_flatten` result (number of
top-level elements of the returned response sequence). -/
def Grouped.ylength {γ β : Type} : Grouped γ β → Nat
  | .flat _ Y => Y.length
  | .grouped _ gY => gY.length

/-- The X component of an `inverse_flatten` result, as passed on (duck
typed, flat or grouped) to later calls. -/
def Grouped.xarg {γ β : Type} : Grouped γ β → List γ ⊕ List (List γ)
  | .flat X _ => .inl X
  | .grouped gX _ => .inr gX

/-- The Y component of an `inverse_flatten` result, as passed on (duck
typed, flat or grouped) to later calls. -/
def Grouped.yarg {γ β : Type} : Grouped γ β → List β ⊕ List (List β)
  | .flat _ Y => .inl Y
  | .grouped _ gY => .inr gY

/-!
The `Learner` adapter.  The external collaborators (the vectorizer's
`fit_transform` / `inverse_fit_transform`, the model's `predict`, the
filesystem and the deserializer) are out of scope and are passed in as
oracle functions; the adapter's own control flow is embedded exactly.
Python `raise` / uncaught exceptions are modelled with `Except String`.
-/

/-- Embedding of `Learner.from_config` (src/jade/learn.py, lines 48-53):
the body is an unimplemented stub (`TODO: THIS`), a bare `return`, so the
call evaluates to Python `None` for every filename. -/
def from_config {L : Type} (filename : String) : Option L := none

/-- `os.path.join(d, f)` for the paths built by `load`. -/
def pjoin (d f : String) : String := d ++ "/" ++ f

/-- Embedding of `Learner.load` (src/jade/learn.py, lines 55-82).

`pathExists` is `os.path.exists`, `joblibLoad` is `joblib.load` (an
`Except.error` models a raised deserialization exception), `models` is
`session.models`.  Branches, in order:
1. the direct path exists: `joblib.load` it, and on ANY exception fall
   back to `cls.from_config(filename)` (the bare `except:`);
2. `<models>/<filename>.pkl` exists: `joblib.load` it (an exception here
   propagates);
3. `<models>/<filename>.yml` exists: `cls.from_config` on it;
4. otherwise raise `AssertionError('Cannot load model. ...')`.

A successful `joblib.load` yields a learner (`some`), a `from_config`
result is `None` (`none`). -/
def load {L : Type} (pathExists : String → Bool) (joblibLoad : String → Except String L)
    (models filename : String) : Except String (Option L) :=
  if pathExists filename then
    match joblibLoad filename with
    | .ok m => .ok (some m)
    | .error _ => .ok (from_config filename)
  else if pathExists (pjoin models (filename ++ ".pkl")) then
    match joblibLoad (pjoin models (filename ++ ".pkl")) with
    | .ok m => .ok (some m)
    | .error e => .error e
  else if pathExists (pjoin models (filename ++ ".yml")) then
    .ok (from_config (pjoin models (filename ++ ".yml")))
  else
    .error "Cannot load model. Pickle file does not exist!"

/-- Embedding of `Learner.fit` (src/jade/learn.py, lines 147-154), reduced
to the state it computes: `tX, tY = vectorizer.fit_transform(X, Y)` is the
oracle `vfit`, then `self._X, self._Y, self._Z = self.flatten(tX, tY)`.
The triple unpacking raises (`ValueError`) when `flatten` took its base
case and returned only two values, and any exception inside `flatten`
propagates; both are `.error`.  The call `self.model.fit(self._X, self._Y)`
is an external side effect with no influence on the state. -/
def fit {ρx ρy α β : Type} (vfit : ρx → ρy → Pred α × Resp β) (X : ρx) (Y : ρy) :
    Except String (List (Pred α) × List β × List Nat) :=
  let t := vfit X Y
  match flatten t.1 t.2 with
  | some (fX, fY, some fZ) => .ok (fX, fY, fZ)
  | _ => .error "flatten did not produce an unpackable triple"

/-- Embedding of `Learner.fit_predict` (src/jade/learn.py, lines 162-170):
after `fit`, `pY = model.predict(self._X)`;
`fX, fY = inverse_flatten(self._X, pY, self._Z)`;
`rX, rY = vectorizer.inverse_fit_transform(fX, fY)`; return `rY`.
The regrouped `fY` is what reaches the inverse transform here. -/
def fit_predict {ρx ρy α β R1 R2 : Type} (vfit : ρx → ρy → Pred α × Resp β)
    (modelPredict : List (Pred α) → List β)
    (invFitTransform : (List (Pred α) ⊕ List (List (Pred α))) → (List β ⊕ List (List β)) → R1 × R2)
    (X : ρx) (Y : ρy) : Except String R2 :=
  match fit vfit X Y with
  | .error e => .error e
  | .ok (fX, _, fZ) =>
    let pY := modelPredict fX
    let g := inverse_flatten fX pY fZ
    .ok (invFitTransform g.xarg g.yarg).2

/-- Embedding of `Learner.predict` (src/jade/learn.py, lines 172-184).

`stY` is the cached `self._Y` (`None` until a fit succeeded).  Control
flow: if `self._Y is None`, raise `AssertionError('Model has not been
fit! ...')` before touching anything else.  Otherwise
`tX, tY = obj.fit_transform(X, self._Y, pred=True)` (oracle `pfit`);
`fX, fY, fZ = self.flatten(tX, tY)` (triple unpacking, as in `fit`);
`pY = self.model.predict(fX)`;
`fX, fY = self.inverse_flatten(fX, pY, fZ)` (rebinding `fX`, `fY`);
`rX, rY = obj.inverse_fit_transform(fX, pY)`  — the second argument is the
flat `pY`, not the regrouped `fY`; return `rY`. -/
def predict {ρx α β R1 R2 : Type} (stY : Option (List β))
    (pfit : ρx → List β → Pred α × Resp β)
    (modelPredict : List (Pred α) → List β)
    (invFitTransform : (List (Pred α) ⊕ List (List (Pred α))) → (List β ⊕ List (List β)) → R1 × R2)
    (X : ρx) : Except String R2 :=
  match stY with
  | none => .error "Model has not been fit! Cannot make predictions for new data."
  | some y =>
    let t := pfit X y
    match flatten t.1 t.2 with
    | some (fX, _, some fZ) =>
      let pY := modelPredict fX
      let g := inverse_flatten fX pY fZ
      .ok (invFitTransform g.xarg (Sum.inl pY)).2
    | _ => .error "flatten did not produce an unpackable triple"

/-!
Concrete oracle instances used to exercise the adapter on closed inputs:
a prediction-time vectorizer producing a flat transformed pair, a
fit-time vectorizer producing a one-level-nested pair, a model predicting
the constant 7 for each flat element, and an inverse transform that
returns its two arguments so the values reaching it are observable.
-/

/-- A prediction-time `fit_transform` oracle returning a flat pair. -/
def demoPfit : Unit → List Int → Pred Int × Resp Int :=
  fun _ _ => (Pred.seq [Pred.leaf [1], Pred.leaf [2]], Resp.seq [Resp.scalar 0, Resp.scalar 1])

/-- A fit-time `fit_transform` oracle returning a one-level-nested pair. -/
def demoVfit : Unit → Unit → Pred Int × Resp Int :=
  fun _ _ => (Pred.seq [Pred.seq [Pred.leaf [1], Pred.leaf [2]]],
    Resp.seq [Resp.seq [Resp.scalar 0, Resp.scalar 1]])

/-- A model-predict oracle: the constant label 7 for each element. -/
def demoModel : List (Pred Int) → List Int := fun l => l.map (fun _ => 7)

/-- An `inverse_fit_transform` oracle that returns its arguments, making
the values handed to it observable in the adapter's output. -/
def demoInv : (List (Pred Int) ⊕ List (List (Pred Int))) → (List Int ⊕ List (List Int)) →
    (List (Pred Int) ⊕ List (List (Pred Int))) × (List Int ⊕ List (List Int)) :=
  fun a b => (a, b)

/-- An X group with one level of nesting: a sequence of leaf feature
vectors. -/
def mkXgroup {α : Type} (g : List (List α)) : Pred α := .seq (g.map .leaf)

/-- A Y group with one level of nesting: a flat sequence of scalars. -/
def mkYgroup {β : Type} (h : List β) : Resp β := .seq (h.map .scalar)

/-! ### Lemmas about `flatten` -/

/-- The flatten loop over a flat (all-scalar) response sequence copies
both sequences and records `len(X[idx])` for every element. -/
theorem flattenZip_scalar {α β : Type} (xs : List (Pred α)) (ys : List β)
    (h : xs.length = ys.length) :
    flattenZip xs (ys.map Resp.scalar) = some (xs, ys, xs.map plen) := by
  induction xs generalizing ys with
  | nil =>
    cases ys with
    | nil => simp [flattenZip]
    | cons y ys => simp at h
  | cons x xs ih =>
    cases ys with
    | nil => simp at h
    | cons y ys =>
      simp only [List.length_cons, Nat.add_right_cancel_iff] at h
      simp [flattenZip, flatten, ih ys h]

/-- `flatten` on a flat response sequence: both sequences are returned
element for element, and `Z` holds one entry per element, the `len` of
the corresponding predictor. -/
theorem flatten_flat {α β : Type} (xs : List (Pred α)) (ys : List β)
    (h : xs.length = ys.length) :
    flatten (.seq xs) (.seq (ys.map .scalar)) = some (xs, ys, some (xs.map plen)) := by
  simp [flatten, h, flattenZip_scalar xs ys h]

/-- The flatten loop over one-level-nested groups concatenates the
groups and records each group's size. -/
theorem flattenZip_onelevel {α β : Type} {xgs : List (List (List α))} {ygs : List (List β)}
    (h : List.Forall₂ (fun g hy => g.length = hy.length) xgs ygs) :
    flattenZip (xgs.map mkXgroup) (ygs.map mkYgroup) =
      some (xgs.flatten.map Pred.leaf, ygs.flatten, xgs.map List.length) := by
  induction h with
  | nil => simp [flattenZip]
  | @cons g hy xgs ygs hlen hrest ih =>
    have hflat : flatten (Pred.seq (g.map Pred.leaf)) (Resp.seq (hy.map Resp.scalar)) =
        some (g.map Pred.leaf, hy, some ((g.map Pred.leaf).map plen)) :=
      flatten_flat (g.map Pred.leaf) hy (by simpa using hlen)
    simp [flattenZip, mkXgroup, mkYgroup, hflat, ih, plen]

/-- `flatten` on matching one-level-nested input: the flat outputs are the
concatenations of the groups, and `Z` lists the group sizes. -/
theorem flatten_onelevel {α β : Type} {xgs : List (List (List α))} {ygs : List (List β)}
    (h : List.Forall₂ (fun g hy => g.length = hy.length) xgs ygs) :
    flatten (.seq (xgs.map mkXgroup)) (.seq (ygs.map mkYgroup)) =
      some (xgs.flatten.map Pred.leaf, ygs.flatten, some (xgs.map List.length)) := by
  have hlen := h.length_eq
  simp [flatten, hlen, flattenZip_onelevel h]

/-- Under the matching-shape hypothesis the recorded group sizes agree
with both sides. -/
theorem forall₂_map_length {α β : Type} {xgs : List (List (List α))} {ygs : List (List β)}
    (h : List.Forall₂ (fun g hy => g.length = hy.length) xgs ygs) :
    xgs.map List.length = ygs.map List.length := by
  induction h with
  | nil => rfl
  | @cons g hy xgs ygs hlen hrest ih => simp [hlen, ih]

/-! ### Lemmas about the slicing loop of `inverse_flatten` -/

/-- The slicing loop produces one slice per group size. -/
theorem sliceFrom_length {γ : Type} (X : List γ) (Z : List Nat) (c : Nat) :
    (sliceFrom X c Z).length = Z.length := by
  induction Z generalizing c with
  | nil => simp [sliceFrom]
  | cons z zs ih => simp [sliceFrom, ih]

/-- The slices produced from cursor `c` concatenate to the next
`sum(Z)` elements after position `c` (clamped at the end of the list,
exactly like Python slicing). -/
theorem flatten_sliceFrom {γ : Type} (X : List γ) (Z : List Nat) (c : Nat) :
    (sliceFrom X c Z).flatten = (X.drop c).take Z.sum := by
  induction Z generalizing c with
  | nil => simp [sliceFrom]
  | cons z zs ih =>
    simp only [sliceFrom, List.flatten_cons, ih (c + z), List.sum_cons]
    rw [List.take_add, ← List.drop_drop]

/-- Slicing a concatenation of groups by the group lengths, starting just
after a prefix, recovers the groups exactly. -/
theorem sliceFrom_flatten_eq {γ : Type} (ls : List (List γ)) (pre : List γ) :
    sliceFrom (pre ++ ls.flatten) pre.length (ls.map List.length) = ls := by
  induction ls generalizing pre with
  | nil => simp [sliceFrom]
  | cons l ls ih =>
    simp only [List.flatten_cons, List.map_cons, sliceFrom]
    congr 1
    · rw [List.drop_left, List.take_left]
    · have e1 : pre ++ (l ++ ls.flatten) = (pre ++ l) ++ ls.flatten := by
        rw [List.append_assoc]
      have e2 : pre.length + l.length = (pre ++ l).length := (List.length_append pre l).symm
      rw [e1, e2, ih (pre ++ l)]

/-- Slicing a concatenation of groups by the group lengths recovers the
groups exactly. -/
theorem sliceFrom_flatten_zero {γ : Type} (ls : List (List γ)) :
    sliceFrom ls.flatten 0 (ls.map List.length) = ls := by
  simpa using sliceFrom_flatten_eq ls []

/-! ### The claims -/

/-- C1 counterexample: for the flat scalar response sequence `Y = [0, 1]`
paired with `X = [[1,2],[3,4]]`, `flatten(X, Y)` does not return
`([X], [Y])` with an empty `Z`: the recursive branch runs (Y is itself a
sequence), the result's first component is `X` element for element (two
elements, not the single wrapped element `[X]`), and `Z = [2, 2]` is not
empty. -/
theorem c1_counterexample :
    flatten (Pred.seq [Pred.leaf [(1 : Int), 2], Pred.leaf [3, 4]])
        (Resp.seq [Resp.scalar (0 : Int), Resp.scalar 1]) =
      some ([Pred.leaf [1, 2], Pred.leaf [3, 4]], [0, 1], some [2, 2]) ∧
    (some [2, 2] : Option (List Nat)) ≠ some [] ∧
    ([Pred.leaf [(1 : Int), 2], Pred.leaf [3, 4]] : List (Pred Int)).length ≠
      ([Pred.seq [Pred.leaf [(1 : Int), 2], Pred.leaf [3, 4]]] : List (Pred Int)).length := by
  refine ⟨?_, by decide, by decide⟩
  simp [flatten, flattenZip, plen]

/-- C1 (amended): for every predictor sequence `X` and flat scalar
response sequence `Y` of the same length, `flatten(X, Y)` returns the
three-tuple `(X, Y, Z)` — both sequences unchanged element for element —
with `Z = [len(X[0]), ..., len(X[n-1])]`, one entry per element; `Z` is
thus empty only for empty input.  (The base case returning `([X], [Y])`
with no `Z` fires one level down, when `Y` itself is a scalar.) -/
theorem c1_flat_response {α β : Type} (xs : List (Pred α)) (ys : List β)
    (h : xs.length = ys.length) :
    flatten (.seq xs) (.seq (ys.map .scalar)) = some (xs, ys, some (xs.map plen)) :=
  flatten_flat xs ys h

/-- Witness for C1 (amended) at `X = [[1,2],[3,4]]`, `Y = [0,1]`. -/
theorem c1_flat_response_witness :
    ([Pred.leaf [(1 : Int), 2], Pred.leaf [3, 4]] : List (Pred Int)).length =
      ([(0 : Int), 1]).length ∧
    flatten (Pred.seq [Pred.leaf [(1 : Int), 2], Pred.leaf [3, 4]])
        (Resp.seq ([(0 : Int), 1].map Resp.scalar)) =
      some ([Pred.leaf [1, 2], Pred.leaf [3, 4]], [0, 1], some [2, 2]) := by
  refine ⟨by decide, ?_⟩
  have := c1_flat_response [Pred.leaf [(1 : Int), 2], Pred.leaf [3, 4]] [(0 : Int), 1] (by decide)
  simpa [plen] using this

/-- C2 counterexample: `inverse_flatten([5], [7], [])` does not return its
inputs unchanged: `len([]) = 0 < 1 = len(Y)` so the regrouping branch
runs, its loop walks the empty `Z`, and a pair of empty sequences is
returned. -/
theorem c2_counterexample :
    inverse_flatten [(5 : Int)] [(7 : Int)] [] = Grouped.grouped [] [] ∧
    Grouped.grouped ([] : List (List Int)) ([] : List (List Int)) ≠
      Grouped.flat [(5 : Int)] [(7 : Int)] := by
  exact ⟨by decide, by decide⟩

/-- C2 (amended): for flat equal-length `X`, `Y`, the call
`inverse_flatten(X, Y, [])` is the identity only when `Y` is empty; for
nonempty `Y` the guard `len([]) < len(Y)` holds and the call returns a
pair of empty sequences instead. -/
theorem c2_empty_groups {γ β : Type} (X : List γ) (Y : List β)
    (h : X.length = Y.length) :
    (Y = [] → inverse_flatten X Y [] = Grouped.flat X Y) ∧
    (Y ≠ [] → inverse_flatten X Y [] = Grouped.grouped [] []) := by
  constructor
  · intro hY
    subst hY
    simp [inverse_flatten]
  · intro hY
    have hpos : 0 < Y.length := List.length_pos.mpr hY
    simp [inverse_flatten, hpos, sliceFrom]

/-- Witness for C2 (amended) at `X = [5]`, `Y = [7]`. -/
theorem c2_empty_groups_witness :
    ([(5 : Int)]).length = ([(7 : Int)]).length ∧
    inverse_flatten [(5 : Int)] [(7 : Int)] [] = Grouped.grouped [] [] :=
  ⟨by decide, (c2_empty_groups [(5 : Int)] [(7 : Int)] (by decide)).2 (by decide)⟩

/-- C3 counterexample: for the depth-three nested pair
`X = [[[[1],[2]]]]`, `Y = [[[0,1]]]` (matching ragged shape, `Y`'s
elements are sequences), `flatten` returns `Z = [1]` while the flattened
output has two elements, so `sum(Z) = 1 ≠ 2 = len(flatX) = len(flatY)`:
the invariant only holds at one level of nesting. -/
theorem c3_counterexample :
    flatten (Pred.seq [Pred.seq [Pred.seq [Pred.leaf [(1 : Int)], Pred.leaf [2]]]])
        (Resp.seq [Resp.seq [Resp.seq [Resp.scalar (0 : Int), Resp.scalar 1]]]) =
      some ([Pred.leaf [1], Pred.leaf [2]], [0, 1], some [1]) ∧
    ([1] : List Nat).sum ≠
      ([Pred.leaf [(1 : Int)], Pred.leaf [2]] : List (Pred Int)).length := by
  refine ⟨?_, by decide⟩
  simp [flatten, flattenZip, plen]

/-- C3 (amended): for `X`, `Y` with exactly one level of nesting (each
`Y[i]` a flat sequence of scalars) and matching ragged shape, the `Z`
returned by `flatten(X, Y)` satisfies
`sum(Z) = len(flatX) = len(flatY)`; for deeper nesting the invariant can
fail (`Z` then counts subgroups, not flattened elements). -/
theorem c3_sum_of_group_sizes {α β : Type} {xgs : List (List (List α))}
    {ygs : List (List β)}
    (h : List.Forall₂ (fun g hy => g.length = hy.length) xgs ygs) :
    flatten (.seq (xgs.map mkXgroup)) (.seq (ygs.map mkYgroup)) =
      some (xgs.flatten.map Pred.leaf, ygs.flatten, some (xgs.map List.length)) ∧
    (xgs.map List.length).sum = (xgs.flatten.map Pred.leaf).length ∧
    (xgs.map List.length).sum = ygs.flatten.length := by
  refine ⟨flatten_onelevel h, ?_, ?_⟩
  · simp [List.length_flatten, Function.comp_def]
  · rw [forall₂_map_length h]
    simp [List.length_flatten]

/-- Witness for C3 (amended) at `X = [[[10],[20]],[[30]]]`,
`Y = [[0,1],[1]]`. -/
theorem c3_sum_of_group_sizes_witness :
    List.Forall₂ (fun g hy => g.length = hy.length)
      [[[(10 : Int)], [20]], [[30]]] [[(0 : Int), 1], [1]] ∧
    (flatten (Pred.seq ([[[(10 : Int)], [20]], [[30]]].map mkXgroup))
        (Resp.seq ([[(0 : Int), 1], [1]].map mkYgroup)) =
      some ([[[(10 : Int)], [20]], [[30]]].flatten.map Pred.leaf,
        [[(0 : Int), 1], [1]].flatten, some ([[[(10 : Int)], [20]], [[30]]].map List.length)) ∧
    ([[[(10 : Int)], [20]], [[30]]].map List.length).sum =
      ([[[(10 : Int)], [20]], [[30]]].flatten.map Pred.leaf).length ∧
    ([[[(10 : Int)], [20]], [[30]]].map List.length).sum =
      [[(0 : Int), 1], [1]].flatten.length) := by
  have hf : List.Forall₂ (fun g hy => g.length = hy.length)
      [[[(10 : Int)], [20]], [[30]]] [[(0 : Int), 1], [1]] :=
    List.Forall₂.cons (by decide) (List.Forall₂.cons (by decide) List.Forall₂.nil)
  exact ⟨hf, c3_sum_of_group_sizes hf⟩

/-- C4 counterexample: for the one-level-nested `X = [[],[]]`,
`Y = [[],[]]` (each `Y[i]` a flat — empty — sequence of scalars),
`flatten` yields `flatX = []`, `flatY = []`, `Z = [0, 0]`, but
`inverse_flatten([], [], [0,0])` takes its no-op branch
(`len(Z) = 2 ≮ 0 = len(Y)`) and returns the flat sequences unchanged, so
the number of groups in the output is `0 ≠ 2 = len(Z)`. -/
theorem c4_counterexample :
    flatten (Pred.seq [Pred.seq ([] : List (Pred Int)), Pred.seq []])
        (Resp.seq [Resp.seq ([] : List (Resp Int)), Resp.seq []]) =
      some ([], [], some [0, 0]) ∧
    inverse_flatten ([] : List (Pred Int)) ([] : List Int) [0, 0] =
      Grouped.flat [] [] ∧
    (Grouped.flat ([] : List (Pred Int)) ([] : List Int)).ylength ≠
      ([0, 0] : List Nat).length := by
  refine ⟨?_, ?_, by decide⟩
  · simp [flatten, flattenZip, plen]
  · rfl

/-- C4 (amended): for `X`, `Y` with exactly one level of nesting and
matching ragged shape, and strictly fewer groups than flattened elements
(`len(Z) < len(flatY)`), feeding `flatten`'s output back into
`inverse_flatten` reconstructs the original groups exactly — so the
concatenation of the grouped output is the flattened sequence and the
number of groups equals `len(Z)`; when `len(Z) ≥ len(flatY)` (for
instance all groups empty) the flat sequences are returned unchanged and
the group count can differ from `len(Z)`. -/
theorem c4_round_trip {α β : Type} {xgs : List (List (List α))}
    {ygs : List (List β)}
    (h : List.Forall₂ (fun g hy => g.length = hy.length) xgs ygs)
    (hZ : ygs.length < ygs.flatten.length) :
    flatten (.seq (xgs.map mkXgroup)) (.seq (ygs.map mkYgroup)) =
      some (xgs.flatten.map Pred.leaf, ygs.flatten, some (xgs.map List.length)) ∧
    inverse_flatten (xgs.flatten.map Pred.leaf) ygs.flatten (xgs.map List.length) =
      Grouped.grouped (xgs.map (List.map Pred.leaf)) ygs ∧
    ygs.length = (xgs.map List.length).length := by
  have hlen := h.length_eq
  refine ⟨flatten_onelevel h, ?_, by simp [hlen]⟩
  have hcond : (xgs.map List.length).length < ygs.flatten.length := by
    simpa [hlen] using hZ
  unfold inverse_flatten
  rw [if_pos hcond]
  congr 1
  · have e1 : xgs.flatten.map Pred.leaf = (xgs.map (List.map Pred.leaf)).flatten :=
      List.map_flatten _ _
    have e2 : xgs.map List.length = (xgs.map (List.map Pred.leaf)).map List.length := by
      simp [List.map_map, Function.comp_def]
    rw [e1, e2, sliceFrom_flatten_zero]
  · rw [forall₂_map_length h, sliceFrom_flatten_zero]

/-- Witness for C4 (amended) at `X = [[[10],[20]],[[30]]]`,
`Y = [[0,1],[1]]`: two groups, three flattened elements. -/
theorem c4_round_trip_witness :
    List.Forall₂ (fun g hy => g.length = hy.length)
      [[[(10 : Int)], [20]], [[30]]] [[(0 : Int), 1], [1]] ∧
    ([[(0 : Int), 1], [1]] : List (List Int)).length <
      ([[(0 : Int), 1], [1]] : List (List Int)).flatten.length ∧
    inverse_flatten ([[[(10 : Int)], [20]], [[30]]].flatten.map Pred.leaf)
        ([[(0 : Int), 1], [1]] : List (List Int)).flatten
        ([[[(10 : Int)], [20]], [[30]]].map List.length) =
      Grouped.grouped ([[[(10 : Int)], [20]], [[30]]].map (List.map Pred.leaf))
        [[(0 : Int), 1], [1]] := by
  have hf : List.Forall₂ (fun g hy => g.length = hy.length)
      [[[(10 : Int)], [20]], [[30]]] [[(0 : Int), 1], [1]] :=
    List.Forall₂.cons (by decide) (List.Forall₂.cons (by decide) List.Forall₂.nil)
  exact ⟨hf, by decide, (c4_round_trip hf (by decide)).2.1⟩

/-- C5: the worked example.  With `X = [[a1,a2],[b1]]` (the `aᵢ`, `b₁`
arbitrary feature vectors) and `Y = [[0,1],[1]]`, `flatten` yields
`flatX = [a1,a2,b1]`, `flatY = [0,1,1]`, `Z = [2,1]`; and
`inverse_flatten([a1,a2,b1], [9,8,7], [2,1])` regroups the predictions
into `[[9,8],[7]]` (and the predictors into `[[a1,a2],[b1]]`). -/
theorem c5_worked_example (a1 a2 b1 : List Int) :
    flatten (Pred.seq [Pred.seq [Pred.leaf a1, Pred.leaf a2], Pred.seq [Pred.leaf b1]])
        (Resp.seq [Resp.seq [Resp.scalar (0 : Int), Resp.scalar 1],
          Resp.seq [Resp.scalar 1]]) =
      some ([Pred.leaf a1, Pred.leaf a2, Pred.leaf b1], [0, 1, 1], some [2, 1]) ∧
    inverse_flatten [Pred.leaf a1, Pred.leaf a2, Pred.leaf b1] [(9 : Int), 8, 7] [2, 1] =
      Grouped.grouped [[Pred.leaf a1, Pred.leaf a2], [Pred.leaf b1]] [[9, 8], [7]] := by
  constructor
  · simp [flatten, flattenZip, plen]
  · simp [inverse_flatten, sliceFrom]

/-- C6: calling `predict` on a learner whose cached fit state `_Y` is
still `None` raises the `AssertionError` whose message says the model has
not been fit, for every vectorizer oracle, every model oracle and every
input — in particular the result is the error independently of the
model's predict function, which is never invoked. -/
theorem c6_predict_unfit {ρx α β R1 R2 : Type}
    (pfit : ρx → List β → Pred α × Resp β)
    (modelPredict : List (Pred α) → List β)
    (invFitTransform : (List (Pred α) ⊕ List (List (Pred α))) →
      (List β ⊕ List (List β)) → R1 × R2)
    (X : ρx) :
    predict none pfit modelPredict invFitTransform X =
      .error "Model has not been fit! Cannot make predictions for new data." := rfl

/-- C7: when no file exists under any of the three lookup strategies (the
direct path, `<models>/<name>.pkl`, `<models>/<name>.yml`), `Learner.load`
raises the `AssertionError` whose message says the model cannot be
loaded. -/
theorem c7_load_missing {L : Type} (pathExists : String → Bool)
    (joblibLoad : String → Except String L) (models filename : String)
    (h1 : pathExists filename = false)
    (h2 : pathExists (pjoin models (filename ++ ".pkl")) = false)
    (h3 : pathExists (pjoin models (filename ++ ".yml")) = false) :
    load pathExists joblibLoad models filename =
      .error "Cannot load model. Pickle file does not exist!" := by
  simp [load, h1, h2, h3]

/-- Witness for C7: an empty filesystem. -/
theorem c7_load_missing_witness :
    (fun _ : String => false) "m" = false ∧
    load (fun _ : String => false)
        ((fun _ => Except.error "boom") : String → Except String Unit) "models" "m" =
      .error "Cannot load model. Pickle file does not exist!" :=
  ⟨rfl, c7_load_missing _ _ _ _ rfl rfl rfl⟩

/-- C8: when the filename exists as a direct path but deserializing it
raises, `Learner.load` swallows the error (`except:`) and returns the
result of the config-file loading path, `from_config(filename)` — which
is the unimplemented stub, i.e. `None`; the deserialization failure never
reaches the caller. -/
theorem c8_load_swallows_error {L : Type} (pathExists : String → Bool)
    (joblibLoad : String → Except String L) (models filename e : String)
    (h1 : pathExists filename = true)
    (h2 : joblibLoad filename = .error e) :
    load pathExists joblibLoad models filename = .ok (from_config filename) ∧
    (from_config filename : Option L) = none := by
  constructor
  · simp [load, h1, h2]
  · rfl

/-- Witness for C8: a present but corrupt direct-path file. -/
theorem c8_load_swallows_error_witness :
    (fun _ : String => true) "m" = true ∧
    ((fun _ => Except.error "corrupt") : String → Except String Unit) "m" =
      .error "corrupt" ∧
    load (fun _ : String => true)
        ((fun _ => Except.error "corrupt") : String → Except String Unit) "models" "m" =
      .ok (from_config "m") :=
  ⟨rfl, rfl,
    (c8_load_swallows_error (fun _ : String => true)
      ((fun _ => Except.error "corrupt") : String → Except String Unit)
      "models" "m" "corrupt" rfl rfl).1⟩

/-- C9: on the success path `predict` hands the vectorizer's inverse
transform the regrouped `fX` but the flat model prediction `pY` — the
regrouped response component of its `inverse_flatten` call is discarded —
while `fit_predict` hands it the regrouped response `fY`.  The inverse
transform oracle is universally quantified, so the equations pin down the
exact arguments reaching it. -/
theorem c9_flat_vs_regrouped {ρx ρy α β R1 R2 : Type}
    (pfit : ρx → List β → Pred α × Resp β) (vfit : ρx → ρy → Pred α × Resp β)
    (modelPredict : List (Pred α) → List β)
    (invFitTransform : (List (Pred α) ⊕ List (List (Pred α))) →
      (List β ⊕ List (List β)) → R1 × R2)
    (X X' : ρx) (Y' : ρy) (y : List β)
    (fX : List (Pred α)) (fY : List β) (fZ : List Nat)
    (fX' : List (Pred α)) (fY' : List β) (fZ' : List Nat)
    (h1 : flatten (pfit X y).1 (pfit X y).2 = some (fX, fY, some fZ))
    (h2 : flatten (vfit X' Y').1 (vfit X' Y').2 = some (fX', fY', some fZ')) :
    predict (some y) pfit modelPredict invFitTransform X =
      .ok (invFitTransform (inverse_flatten fX (modelPredict fX) fZ).xarg
        (Sum.inl (modelPredict fX))).2 ∧
    fit_predict vfit modelPredict invFitTransform X' Y' =
      .ok (invFitTransform (inverse_flatten fX' (modelPredict fX') fZ').xarg
        (inverse_flatten fX' (modelPredict fX') fZ').yarg).2 := by
  constructor
  · simp [predict, h1]
  · simp [fit_predict, fit, h2]

/-- Witness for C9 on concrete oracles: the constant-7 model predicts
`[7, 7]`; `predict` forwards the flat `inl [7, 7]` to the inverse
transform while `fit_predict` (whose fit produced the grouping `Z = [2]`)
forwards the regrouped `inr [[7, 7]]`. -/
theorem c9_flat_vs_regrouped_witness :
    flatten (demoPfit () [0]).1 (demoPfit () [0]).2 =
      some ([Pred.leaf [1], Pred.leaf [2]], [0, 1], some [1, 1]) ∧
    flatten (demoVfit () ()).1 (demoVfit () ()).2 =
      some ([Pred.leaf [1], Pred.leaf [2]], [0, 1], some [2]) ∧
    predict (some [0]) demoPfit demoModel demoInv () = .ok (Sum.inl [7, 7]) ∧
    fit_predict demoVfit demoModel demoInv () () = .ok (Sum.inr [[7, 7]]) := by
  have h1 : flatten (demoPfit () [0]).1 (demoPfit () [0]).2 =
      some ([Pred.leaf [1], Pred.leaf [2]], [0, 1], some [1, 1]) := by
    simp [demoPfit, flatten, flattenZip, plen]
  have h2 : flatten (demoVfit () ()).1 (demoVfit () ()).2 =
      some ([Pred.leaf [1], Pred.leaf [2]], [0, 1], some [2]) := by
    simp [demoVfit, flatten, flattenZip, plen]
  have main := c9_flat_vs_regrouped demoPfit demoVfit demoModel demoInv () () () [0]
    _ _ _ _ _ _ h1 h2
  refine ⟨h1, h2, ?_, ?_⟩
  · rw [main.1]
    simp [demoModel, demoInv, inverse_flatten, Grouped.xarg, sliceFrom]
  · rw [main.2]
    simp [demoModel, demoInv, inverse_flatten, Grouped.xarg, Grouped.yarg, sliceFrom]

/-- C10: for flat equal-length `X`, `Y` and any group sizes `Z` with
`len(Z) < len(Y)`, `inverse_flatten` returns (without error) the slices
of `X` and `Y` by `Z`, whose concatenations are exactly the first
`sum(Z)` elements (clamped at `len(Y)`, i.e. `min(sum(Z), len(Y))`
elements) of `X` and of `Y`: elements past position `sum(Z)` are silently
dropped, and no error occurs when `sum(Z) ≠ len(Y)`. -/
theorem c10_slicing_total {γ β : Type} (X : List γ) (Y : List β) (Z : List Nat)
    (h1 : X.length = Y.length) (h2 : Z.length < Y.length) :
    inverse_flatten X Y Z = Grouped.grouped (sliceFrom X 0 Z) (sliceFrom Y 0 Z) ∧
    (sliceFrom Y 0 Z).flatten = Y.take Z.sum ∧
    (sliceFrom X 0 Z).flatten = X.take Z.sum := by
  refine ⟨?_, ?_, ?_⟩
  · simp [inverse_flatten, h2]
  · simpa using flatten_sliceFrom Y Z 0
  · simpa using flatten_sliceFrom X Z 0

/-- Witness for C10 at `X = [1,2,3]`, `Y = [4,5,6]`, `Z = [2]`:
`sum(Z) = 2 ≠ 3 = len(Y)`, no error, and the element past position 2 is
dropped (`[[4,5]]`). -/
theorem c10_slicing_total_witness :
    ([(1 : Int), 2, 3]).length = ([(4 : Int), 5, 6]).length ∧
    ([2] : List Nat).length < ([(4 : Int), 5, 6]).length ∧
    inverse_flatten [(1 : Int), 2, 3] [(4 : Int), 5, 6] [2] =
      Grouped.grouped (sliceFrom [(1 : Int), 2, 3] 0 [2])
        (sliceFrom [(4 : Int), 5, 6] 0 [2]) ∧
    inverse_flatten [(1 : Int), 2, 3] [(4 : Int), 5, 6] [2] =
      Grouped.grouped [[1, 2]] [[4, 5]] :=
  ⟨by decide, by decide,
    (c10_slicing_total [(1 : Int), 2, 3] [(4 : Int), 5, 6] [2] (by decide) (by decide)).1,
    by decide⟩

end Jade
